import Mathlib

/-!
Shallow embedding of the Try-outfits Gemini service layer.

The repository contains two implementations of `editImageWithGemini`:
`src/services/geminiService.ts` (imported by `App.tsx`) and an unnamed file
(`src/unnamed/part_000`).  Both share the request building and the
response-interpretation code; they differ in the `catch` handler:
the unnamed variant classifies quota errors and computes retry delays,
while `geminiService.ts` rethrows `error.message` (or a fixed fallback).

JavaScript-specific semantics are modelled explicitly:
- optional / possibly-undefined fields become `Option`;
- `a || b` on numbers treats `0` as falsy, on strings treats `""` as falsy,
  and arrays (even empty ones) are always truthy;
- `parseFloat` is modelled over ℚ on its plain decimal fragment
  (optional sign, digits, optional fractional part; no exponent, no
  `Infinity`, no leading whitespace), which covers every delay string the
  service emits; a failed parse (`NaN`) is `none`;
- `Math.floor` / `Math.ceil` are `Int.floor` / `Int.ceil`, and the JS `%`
  operator is truncated remainder;
- accessing a property of `undefined` (the `candidates[0]` read on an empty
  candidates array) throws a `TypeError`, modelled with the V8 message text.
-/

/-! ## JavaScript value helpers -/

/-- JS truthiness of a possibly-missing string: `undefined`, `null` and `""`
are falsy. -/
def strTruthy : Option String → Bool
  | none => false
  | some s => s ≠ ""

/-- JS `a || b` for possibly-missing numbers: `0` is falsy. -/
def orNum (a b : Option Int) : Option Int :=
  match a with
  | some n => if n = 0 then b else some n
  | none => b

/-- JS `a || b` for possibly-missing strings: `""` is falsy. -/
def orStr (a b : Option String) : Option String :=
  match a with
  | some s => if s = "" then b else some s
  | none => b

/-- JS `a || b` for possibly-missing arrays: every array (even `[]`) is
truthy. -/
def orList {α : Type} (a b : Option (List α)) : Option (List α) :=
  match a with
  | some l => some l
  | none => b

/-- Occurrence of `pat` as a contiguous sublist. -/
def charsContain (pat : List Char) : List Char → Bool
  | [] => pat.isEmpty
  | c :: t => pat.isPrefixOf (c :: t) || charsContain pat t

/-- JS `s.includes(pat)`: substring test. -/
def strContains (s pat : String) : Bool :=
  charsContain pat.data s.data

/-- Numeric value of a digit list (most significant first). -/
def digitsVal (ds : List Char) : Nat :=
  ds.foldl (fun a c => 10 * a + (c.toNat - 48)) 0

/-- JS `parseFloat` on its plain decimal fragment: optional sign, integer
digits, optional `.` and fraction digits, longest valid prefix; `none` models
`NaN` (no digits at all). -/
def jsParseFloat (s : String) : Option ℚ :=
  let signed : ℚ × List Char :=
    match s.data with
    | '-' :: r => (-1, r)
    | '+' :: r => (1, r)
    | cs => (1, cs)
  let ip := signed.2.takeWhile (·.isDigit)
  let rest := signed.2.dropWhile (·.isDigit)
  let fp : List Char :=
    match rest with
    | '.' :: r => r.takeWhile (·.isDigit)
    | _ => []
  if ip.isEmpty && fp.isEmpty then none
  else some (signed.1 * ((digitsVal ip : ℚ) + (digitsVal fp : ℚ) / (10 : ℚ) ^ fp.length))

/-- JS `s.replace("s", "")`: remove only the first occurrence of `s`. -/
def removeFirstS : List Char → List Char
  | [] => []
  | c :: r => if c = 's' then r else c :: removeFirstS r

/-- String wrapper for `removeFirstS`. -/
def jsReplaceFirstS (s : String) : String :=
  ⟨removeFirstS s.data⟩

/-- JS truncation toward zero (`Math.trunc`, the rounding used by `%`). -/
def jsTrunc (q : ℚ) : Int :=
  if 0 ≤ q then ⌊q⌋ else ⌈q⌉

/-- JS `%` operator on finite numbers: truncated remainder. -/
def jsMod (a b : ℚ) : ℚ :=
  a - b * (jsTrunc (a / b) : ℚ)

/-! ## Data model -/

/-- One part of the outgoing request: `{inlineData: {data, mimeType}}` or
`{text}`. -/
inductive RequestPart where
  | inlineData (data : String) (mimeType : String)
  | text (value : String)
deriving DecidableEq

/-- Inline image payload of a response part.  The remote response carries a
MIME type alongside the data; the source never reads it. -/
structure InlineData where
  data : String
  mimeType : Option String
deriving DecidableEq

/-- One part of a response candidate's content. -/
structure ResponsePart where
  inlineData : Option InlineData
  text : Option String
deriving DecidableEq

/-- Content of one response candidate. -/
structure Content where
  parts : Option (List ResponsePart)
deriving DecidableEq

/-- One response candidate. -/
structure Candidate where
  content : Option Content
deriving DecidableEq

/-- Remote response shape as the source consumes it. -/
structure Response where
  candidates : Option (List Candidate)
deriving DecidableEq

/-- One entry of an error's `details` list.  The source reads the JSON keys
`@type` (here `atType`) and `retryDelay`. -/
structure ErrorDetail where
  atType : Option String
  retryDelay : Option String
deriving DecidableEq

/-- Fields inspected on an error object (or on its nested `error` payload). -/
structure ErrorFields where
  code : Option Int
  status : Option String
  message : Option String
  details : Option (List ErrorDetail)
deriving DecidableEq

/-- A caught error value: its own fields plus a possibly-nested `error`
payload one level down. -/
structure CaughtError extends ErrorFields where
  error : Option ErrorFields
deriving DecidableEq

/-- Outcome of the `try` block body: a returned value or a thrown `Error`
(carrying only a message). -/
inductive TryOutcome where
  | ret (value : String)
  | thrown (message : String)
deriving DecidableEq

/-! ## Shared message literals (identical in both source files) -/

/-- Fallback message of the final `throw` in both catch handlers. -/
def FALLBACK_MSG : String := "Failed to edit image using Gemini."

/-- Message thrown when neither an image nor a text part is found. -/
def NO_IMAGE_MSG : String := "No image data received from Gemini."

/-- Message of the refusal `Error` built from a text part. -/
def refusalMsg (t : String) : String :=
  "Gemini refused to generate an image. Reason: " ++ t

/-- V8 message of the `TypeError` raised by `response.candidates[0].content`
when `candidates` is an empty array. -/
def TYPE_ERROR_CANDIDATES_MSG : String :=
  "Cannot read properties of undefined (reading \x27content\x27)"

/-- Type discriminator of a retry-info detail entry. -/
def RETRY_INFO_TYPE : String := "type.googleapis.com/google.rpc.RetryInfo"

/-- Generic quota message (no usable retry hint). -/
def QUOTA_GENERIC_MSG : String :=
  "API quota exceeded. You\x27ve reached the free tier limit. Please wait a few minutes before trying again, or upgrade your plan at https://ai.google.dev/pricing"

/-- Common tail of every quota message. -/
def PRICING_TAIL : String :=
  " before trying again, or upgrade your plan at https://ai.google.dev/pricing"

/-- Wrap a message as the `Error` object the catch handler receives from an
internal `throw`: only `message` is populated. -/
def errorOfMessage (m : String) : CaughtError :=
  ⟨⟨none, none, some m, none⟩, none⟩

/-! ## The unnamed implementation (`src/unnamed/part_000`) -/

namespace Part000

/-- Request building (lines 27-51): primary image part, reference image part
only when both reference arguments are truthy, instruction text part last. -/
def buildParts (base64Image mimeType prompt : String)
    (referenceImageBase64 referenceMimeType : Option String) : List RequestPart :=
  let parts := [RequestPart.inlineData base64Image mimeType]
  let parts :=
    match referenceImageBase64, referenceMimeType with
    | some ri, some rm => if ri ≠ "" ∧ rm ≠ "" then parts ++ [RequestPart.inlineData ri rm] else parts
    | _, _ => parts
  parts ++ [RequestPart.text prompt]

/-- Loop of lines 65-70: the first part with a truthy `inlineData` wins. -/
def findInlineData : List ResponsePart → Option String
  | [] => none
  | p :: ps =>
    match p.inlineData with
    | some d => some d.data
    | none => findInlineData ps

/-- Line 74: `parts.find(p => p.text)` — the first part with truthy text. -/
def findTextPart : List ResponsePart → Option String
  | [] => none
  | p :: ps =>
    match p.text with
    | some t => if t ≠ "" then some t else findTextPart ps
    | none => findTextPart ps

/-- Lines 73-79 after the image scan failed: refusal text or the fixed
no-image error, read through the optional chain
`response.candidates?.[0]?.content?.parts?`. -/
def afterImageScan (r : Response) : TryOutcome :=
  let tp : Option String :=
    match r.candidates with
    | none => none
    | some [] => none
    | some (c :: _) =>
      match c.content with
      | none => none
      | some ct =>
        match ct.parts with
        | none => none
        | some ps => findTextPart ps
  match tp with
  | some t => .thrown (refusalMsg t)
  | none => .thrown NO_IMAGE_MSG

/-- Response interpretation (lines 63-79).  When `candidates` is an empty
array, the unguarded `candidates[0].content` read throws a `TypeError`. -/
def interpretResponse (r : Response) : TryOutcome :=
  match r.candidates with
  | none => afterImageScan r
  | some [] => .thrown TYPE_ERROR_CANDIDATES_MSG
  | some (c :: _) =>
    match c.content with
    | none => afterImageScan r
    | some ct =>
      match ct.parts with
      | none => afterImageScan r
      | some ps =>
        match findInlineData ps with
        | some d => .ret ("data:image/png;base64," ++ d)
        | none => afterImageScan r

/-- Line 85: `const errorObj = error.error || error` (objects are truthy). -/
def unwrapped (e : CaughtError) : ErrorFields :=
  e.error.getD e.toErrorFields

/-- Line 86: `errorObj.code || error.code`. -/
def errorCode (e : CaughtError) : Option Int :=
  orNum (unwrapped e).code e.code

/-- Line 87: `errorObj.status || error.status`. -/
def errorStatus (e : CaughtError) : Option String :=
  orStr (unwrapped e).status e.status

/-- Line 88: `errorObj.message || error.message || ""`. -/
def errorMessage (e : CaughtError) : String :=
  (orStr (unwrapped e).message e.message).getD ""

/-- Line 89: `errorObj.details || error.details || []`. -/
def errorDetails (e : CaughtError) : List ErrorDetail :=
  (orList (unwrapped e).details e.details).getD []

/-- Line 92: the quota / rate-limit classification. -/
def quotaCond (e : CaughtError) : Bool :=
  errorCode e == some 429 || errorStatus e == some "RESOURCE_EXHAUSTED"
    || strContains (errorMessage e) "quota" || strContains (errorMessage e) "Quota exceeded"

/-- Lines 97-104: first detail whose type discriminator is retry-info and
whose `retryDelay` is truthy (the loop `break`s there). -/
def findRetryDelay : List ErrorDetail → Option String
  | [] => none
  | d :: ds =>
    match d.atType, d.retryDelay with
    | some t, some rd => if t = RETRY_INFO_TYPE ∧ rd ≠ "" then some rd else findRetryDelay ds
    | _, _ => findRetryDelay ds

/-- Lines 106-121: wait message computed from the parsed delay.  `none`
models `parseFloat` returning `NaN`, interpolated by JS as the text
`NaN` (both `NaN > 0` and `NaN > 1` are false). -/
def retryMessage (seconds : Option ℚ) : String :=
  match seconds with
  | none => "API quota exceeded. Please wait NaN second" ++ PRICING_TAIL
  | some s =>
    let minutes : Int := ⌊s / 60⌋
    let remainingSeconds : Int := ⌈jsMod s 60⌉
    if minutes > 0 then
      "API quota exceeded. You\x27ve reached the free tier limit. Please wait "
        ++ toString minutes ++ " minute" ++ (if minutes > 1 then "s" else "") ++ " "
        ++ (if remainingSeconds > 0 then
              "and " ++ toString remainingSeconds ++ " second"
                ++ (if remainingSeconds > 1 then "s" else "")
            else "")
        ++ PRICING_TAIL
    else
      "API quota exceeded. Please wait " ++ toString ⌈s⌉ ++ " second"
        ++ (if ⌈s⌉ > 1 then "s" else "") ++ PRICING_TAIL

/-- Catch handler (lines 81-136): message of the rethrown `Error`.  The
shadowed local `errorMessage` of line 93 is dead and omitted; the
`errorDetails.length > 0` guard of line 97 is absorbed by the loop on the
(possibly empty) list.  The re-check of lines 129-133 is kept verbatim even
though it is unreachable when `quotaCond` is false. -/
def catchMessage (e : CaughtError) : String :=
  if quotaCond e then
    match findRetryDelay (errorDetails e) with
    | some rd => retryMessage (jsParseFloat (jsReplaceFirstS rd))
    | none => QUOTA_GENERIC_MSG
  else if errorMessage e ≠ "" ∧ strContains (errorMessage e) "quota" then
    QUOTA_GENERIC_MSG
  else if errorMessage e ≠ "" then errorMessage e
  else FALLBACK_MSG

/-- Whole function: the transport either yields a response (whose
interpretation may itself throw into the catch handler) or throws a raw
error; `Except.error` carries the message of the finally-thrown `Error`. -/
def editImageWithGemini (transport : Except CaughtError Response) : Except String String :=
  match transport with
  | .error e => .error (catchMessage e)
  | .ok r =>
    match interpretResponse r with
    | .ret s => .ok s
    | .thrown m => .error (catchMessage (errorOfMessage m))

end Part000

/-! ## The imported implementation (`src/services/geminiService.ts`) -/

namespace GeminiService

/-- Request building (lines 27-51), textually identical to the unnamed
variant. -/
def buildParts (base64Image mimeType prompt : String)
    (referenceImageBase64 referenceMimeType : Option String) : List RequestPart :=
  let parts := [RequestPart.inlineData base64Image mimeType]
  let parts :=
    match referenceImageBase64, referenceMimeType with
    | some ri, some rm => if ri ≠ "" ∧ rm ≠ "" then parts ++ [RequestPart.inlineData ri rm] else parts
    | _, _ => parts
  parts ++ [RequestPart.text prompt]

/-- Loop of lines 65-70: the first part with a truthy `inlineData` wins. -/
def findInlineData : List ResponsePart → Option String
  | [] => none
  | p :: ps =>
    match p.inlineData with
    | some d => some d.data
    | none => findInlineData ps

/-- Line 74: `parts.find(p => p.text)` — the first part with truthy text. -/
def findTextPart : List ResponsePart → Option String
  | [] => none
  | p :: ps =>
    match p.text with
    | some t => if t ≠ "" then some t else findTextPart ps
    | none => findTextPart ps

/-- Lines 73-79 after the image scan failed. -/
def afterImageScan (r : Response) : TryOutcome :=
  let tp : Option String :=
    match r.candidates with
    | none => none
    | some [] => none
    | some (c :: _) =>
      match c.content with
      | none => none
      | some ct =>
        match ct.parts with
        | none => none
        | some ps => findTextPart ps
  match tp with
  | some t => .thrown (refusalMsg t)
  | none => .thrown NO_IMAGE_MSG

/-- Response interpretation (lines 63-79), textually identical to the
unnamed variant. -/
def interpretResponse (r : Response) : TryOutcome :=
  match r.candidates with
  | none => afterImageScan r
  | some [] => .thrown TYPE_ERROR_CANDIDATES_MSG
  | some (c :: _) =>
    match c.content with
    | none => afterImageScan r
    | some ct =>
      match ct.parts with
      | none => afterImageScan r
      | some ps =>
        match findInlineData ps with
        | some d => .ret ("data:image/png;base64," ++ d)
        | none => afterImageScan r

/-- Catch handler (lines 81-84): `throw new Error(error.message || "...")`,
reading `error.message` directly with no unwrapping and no classification. -/
def catchMessage (e : CaughtError) : String :=
  match e.message with
  | some m => if m = "" then FALLBACK_MSG else m
  | none => FALLBACK_MSG

/-- Whole function for this variant. -/
def editImageWithGemini (transport : Except CaughtError Response) : Except String String :=
  match transport with
  | .error e => .error (catchMessage e)
  | .ok r =>
    match interpretResponse r with
    | .ret s => .ok s
    | .thrown m => .error (catchMessage (errorOfMessage m))

end GeminiService

/-! ## Concrete example values -/

/-- Spec example: `{code: 429, message: "rate limited"}` with no details. -/
def exOuter429 : CaughtError := ⟨⟨some 429, none, some "rate limited", none⟩, none⟩

/-- A 429 code on the outer object while the nested `error` payload carries
no quota signal at all. -/
def exNested429 : CaughtError :=
  ⟨⟨some 429, none, some "boom", none⟩, some ⟨none, none, some "boom", none⟩⟩

/-- Quota error carrying a retry-info detail with `retryDelay: "125s"`. -/
def exRetry125 : CaughtError :=
  ⟨⟨some 429, none, some "rate limited", some [⟨some RETRY_INFO_TYPE, some "125s"⟩]⟩, none⟩

/-- Quota error carrying a retry-info detail with `retryDelay: "0s"`. -/
def exRetry0 : CaughtError :=
  ⟨⟨some 429, none, some "rate limited", some [⟨some RETRY_INFO_TYPE, some "0s"⟩]⟩, none⟩

/-- Non-quota error whose nested payload has no message while the outer
object does. -/
def exOuterMsgOnly : CaughtError :=
  ⟨⟨none, none, some "outer msg", none⟩, some ⟨some 1, none, none, none⟩⟩

/-- Non-quota error with a plain message. -/
def exPlainBoom : CaughtError := ⟨⟨none, none, some "boom", none⟩, none⟩

/-- Response whose first candidate's parts are `[text, image, text]`. -/
def respTextImageText : Response :=
  ⟨some [⟨some ⟨some [⟨none, some "t1"⟩, ⟨some ⟨"IMG", some "image/jpeg"⟩, none⟩,
    ⟨none, some "t2"⟩]⟩⟩]⟩

/-- Response whose first candidate's parts are a single text part. -/
def respTextOnly : Response := ⟨some [⟨some ⟨some [⟨none, some "I cannot do that"⟩]⟩⟩]⟩

/-- Response whose first candidate's parts are a single part with an empty
text field. -/
def respEmptyTextPart : Response := ⟨some [⟨some ⟨some [⟨none, some ""⟩]⟩⟩]⟩

/-- Response whose first candidate has an empty parts list. -/
def respEmptyParts : Response := ⟨some [⟨some ⟨some []⟩⟩]⟩

/-- Response whose only part is a textual refusal mentioning the quota. -/
def respQuotaRefusal : Response :=
  ⟨some [⟨some ⟨some [⟨none, some "your quota is exhausted"⟩]⟩⟩]⟩

/-- Response with a present but empty candidates list. -/
def respEmptyCandidates : Response := ⟨some []⟩

/-! ## Helper lemmas -/

theorem string_data_append (s t : String) : (s ++ t).data = s.data ++ t.data := by
  cases s
  cases t
  rfl

theorem append_ne_nil_left (s t : String) (h : s ≠ "") : s ++ t ≠ "" := by
  intro he
  apply h
  have hd := congrArg String.data he
  rw [string_data_append] at hd
  have hs : s.data = [] := (List.append_eq_nil.mp hd).1
  cases s
  simp only at hs
  simp [hs]

theorem charsContain_append (pat l₂ l₁ : List Char) (h : charsContain pat l₂ = true) :
    charsContain pat (l₁ ++ l₂) = true := by
  induction l₁ with
  | nil => simpa using h
  | cons c cl ih => simp [charsContain, ih]

theorem strContains_append_right (a t pat : String) (h : strContains t pat = true) :
    strContains (a ++ t) pat = true := by
  unfold strContains
  rw [string_data_append]
  exact charsContain_append pat.data t.data a.data h

theorem Part000.findInlineData_of_all_none (ps : List ResponsePart)
    (h : ∀ q ∈ ps, q.inlineData = none) : Part000.findInlineData ps = none := by
  induction ps with
  | nil => rfl
  | cons p pr ih =>
    have hp : p.inlineData = none := h p (by simp)
    simp [Part000.findInlineData, hp]
    exact ih (fun x hx => h x (by simp [hx]))

theorem Part000.findInlineData_first (pre : List ResponsePart) (p : ResponsePart)
    (post : List ResponsePart) (d : InlineData)
    (hpre : ∀ q ∈ pre, q.inlineData = none) (hd : p.inlineData = some d) :
    Part000.findInlineData (pre ++ p :: post) = some d.data := by
  induction pre with
  | nil => simp [Part000.findInlineData, hd]
  | cons q qs ih =>
    have hq : q.inlineData = none := hpre q (by simp)
    simp [Part000.findInlineData, hq]
    exact ih (fun x hx => hpre x (by simp [hx]))

theorem findInlineData_agree (l : List ResponsePart) :
    GeminiService.findInlineData l = Part000.findInlineData l := by
  induction l with
  | nil => rfl
  | cons p ps ih => simp [GeminiService.findInlineData, Part000.findInlineData, ih]

theorem findTextPart_agree (l : List ResponsePart) :
    GeminiService.findTextPart l = Part000.findTextPart l := by
  induction l with
  | nil => rfl
  | cons p ps ih => simp [GeminiService.findTextPart, Part000.findTextPart, ih]

theorem afterImageScan_agree (r : Response) :
    GeminiService.afterImageScan r = Part000.afterImageScan r := by
  unfold GeminiService.afterImageScan Part000.afterImageScan
  obtain ⟨cands⟩ := r
  cases cands with
  | none => rfl
  | some cl =>
    cases cl with
    | nil => rfl
    | cons c cs =>
      obtain ⟨ct⟩ := c
      cases ct with
      | none => rfl
      | some ctv =>
        obtain ⟨ps⟩ := ctv
        cases ps with
        | none => rfl
        | some l => simp [findTextPart_agree]

theorem interpretResponse_agree (r : Response) :
    GeminiService.interpretResponse r = Part000.interpretResponse r := by
  unfold GeminiService.interpretResponse Part000.interpretResponse
  obtain ⟨cands⟩ := r
  cases cands with
  | none => exact afterImageScan_agree ⟨none⟩
  | some cl =>
    cases cl with
    | nil => rfl
    | cons c cs =>
      obtain ⟨ct⟩ := c
      cases ct with
      | none => exact afterImageScan_agree ⟨some (⟨none⟩ :: cs)⟩
      | some ctv =>
        obtain ⟨ps⟩ := ctv
        cases ps with
        | none => exact afterImageScan_agree ⟨some (⟨some ⟨none⟩⟩ :: cs)⟩
        | some l =>
          cases h : Part000.findInlineData l with
          | some d => simp [findInlineData_agree, h]
          | none => simp [findInlineData_agree, h, afterImageScan_agree]

theorem Part000.buildParts_eq_p0 (x mt pr : String) (ri rm : Option String) :
    Part000.buildParts x mt pr ri rm =
      if strTruthy ri && strTruthy rm then
        [RequestPart.inlineData x mt, RequestPart.inlineData (ri.getD "") (rm.getD ""),
          RequestPart.text pr]
      else [RequestPart.inlineData x mt, RequestPart.text pr] := by
  cases ri with
  | none => simp [Part000.buildParts, strTruthy]
  | some a =>
    cases rm with
    | none => simp [Part000.buildParts, strTruthy]
    | some b =>
      by_cases ha : a = "" <;> by_cases hb : b = "" <;>
        simp [Part000.buildParts, strTruthy, ha, hb]

theorem GeminiService.buildParts_eq_gs (x mt pr : String) (ri rm : Option String) :
    GeminiService.buildParts x mt pr ri rm =
      if strTruthy ri && strTruthy rm then
        [RequestPart.inlineData x mt, RequestPart.inlineData (ri.getD "") (rm.getD ""),
          RequestPart.text pr]
      else [RequestPart.inlineData x mt, RequestPart.text pr] := by
  cases ri with
  | none => simp [GeminiService.buildParts, strTruthy]
  | some a =>
    cases rm with
    | none => simp [GeminiService.buildParts, strTruthy]
    | some b =>
      by_cases ha : a = "" <;> by_cases hb : b = "" <;>
        simp [GeminiService.buildParts, strTruthy, ha, hb]

theorem Part000.retryMessage_ne_empty (s : Option ℚ) : Part000.retryMessage s ≠ "" := by
  cases s with
  | none =>
    apply append_ne_nil_left
    decide
  | some q =>
    simp only [Part000.retryMessage]
    by_cases hm : (⌊q / 60⌋ : Int) > 0 <;> simp only [hm, if_true, if_false, reduceIte] <;>
      repeat
        first
        | decide
        | apply append_ne_nil_left

theorem Part000.catchMessage_ne_empty (e : CaughtError) : Part000.catchMessage e ≠ "" := by
  unfold Part000.catchMessage
  split_ifs with h1 h2 h3
  · cases hr : Part000.findRetryDelay (Part000.errorDetails e) with
    | some rd => simp only [hr]; exact Part000.retryMessage_ne_empty _
    | none => simp only [hr]; decide
  · decide
  · exact h3
  · decide

theorem Part000.errorMessage_ofMessage (m : String) :
    Part000.errorMessage (errorOfMessage m) = m := by
  simp [Part000.errorMessage, Part000.unwrapped, errorOfMessage, orStr]

theorem Part000.errorDetails_ofMessage (m : String) :
    Part000.errorDetails (errorOfMessage m) = [] := rfl

theorem Part000.quotaCond_of_quota_message (m : String) (h : strContains m "quota" = true) :
    Part000.quotaCond (errorOfMessage m) = true := by
  simp [Part000.quotaCond, Part000.errorMessage_ofMessage, h]

theorem Part000.catchMessage_of_quota_message (m : String) (h : strContains m "quota" = true) :
    Part000.catchMessage (errorOfMessage m) = QUOTA_GENERIC_MSG := by
  unfold Part000.catchMessage
  rw [Part000.quotaCond_of_quota_message m h, Part000.errorDetails_ofMessage]
  rfl

theorem quota_generic_ne_refusalMsg (t : String) : QUOTA_GENERIC_MSG ≠ refusalMsg t := by
  intro h
  have hd := congrArg (fun s => s.data.head?) h
  dsimp only at hd
  unfold refusalMsg at hd
  rw [string_data_append] at hd
  have hA : (QUOTA_GENERIC_MSG.data).head? = some 'A' := rfl
  have hG : (("Gemini refused to generate an image. Reason: " : String).data
      ++ t.data).head? = some 'G' := rfl
  rw [hA, hG] at hd
  exact absurd hd (by decide)

theorem Part000.interpret_no_image (r : Response) (c : Candidate) (cs : List Candidate)
    (ct : Content) (ps : List ResponsePart)
    (hc : r.candidates = some (c :: cs)) (hct : c.content = some ct) (hps : ct.parts = some ps)
    (hnoimg : ∀ q ∈ ps, q.inlineData = none) :
    Part000.interpretResponse r =
      (match Part000.findTextPart ps with
       | some t => TryOutcome.thrown (refusalMsg t)
       | none => TryOutcome.thrown NO_IMAGE_MSG) := by
  have hfi := Part000.findInlineData_of_all_none ps hnoimg
  unfold Part000.interpretResponse Part000.afterImageScan
  simp [hc, hct, hps, hfi]

theorem Part000.interpret_image (r : Response) (c : Candidate) (cs : List Candidate)
    (ct : Content) (ps : List ResponsePart) (s : String)
    (hc : r.candidates = some (c :: cs)) (hct : c.content = some ct) (hps : ct.parts = some ps)
    (hfi : Part000.findInlineData ps = some s) :
    Part000.interpretResponse r = TryOutcome.ret ("data:image/png;base64," ++ s) := by
  unfold Part000.interpretResponse
  simp [hc, hct, hps, hfi]


/-! ## Claims -/

/-- C10: the Request Builder places the primary image bytes verbatim in the
data field of the first part, and the instruction verbatim in the final text
part, in both implementations: no mutation, trimming or re-encoding. -/
theorem claim_build_preserves_inputs (x mt pr : String) (ri rm : Option String) :
    (Part000.buildParts x mt pr ri rm).head? = some (RequestPart.inlineData x mt)
    ∧ (Part000.buildParts x mt pr ri rm).getLast? = some (RequestPart.text pr)
    ∧ (GeminiService.buildParts x mt pr ri rm).head? = some (RequestPart.inlineData x mt)
    ∧ (GeminiService.buildParts x mt pr ri rm).getLast? = some (RequestPart.text pr) := by
  rw [Part000.buildParts_eq_p0, GeminiService.buildParts_eq_gs]
  by_cases h : (strTruthy ri && strTruthy rm) = true <;>
    simp [h, List.getLast?_cons_cons, List.getLast?_singleton]

/-- C3 is false as stated: with both reference fields set (non-null) but the
reference image data an empty string, the built request has 2 parts, not 3
(JS `&&` treats `""` as falsy, so the pair is silently dropped). -/
theorem claim_builder_parts_cex :
    (some "" : Option String).isSome = true
    ∧ (some "image/png" : Option String).isSome = true
    ∧ (GeminiService.buildParts "IMG" "image/jpeg" "edit" (some "") (some "image/png")).length
        = 2 := by
  decide

/-- C3 (amended): the output is exactly the 3 parts [primary image,
reference image, instruction text] when both reference fields are set and
non-empty, and exactly the 2 parts [primary image, instruction text] —
identical to the no-reference build — when the pair is absent, partial, or
carries an empty value. -/
theorem claim_builder_parts (x mt pr : String) (ri rm : Option String) :
    (strTruthy ri = true → strTruthy rm = true →
      GeminiService.buildParts x mt pr ri rm
        = [RequestPart.inlineData x mt, RequestPart.inlineData (ri.getD "") (rm.getD ""),
            RequestPart.text pr])
    ∧ (strTruthy ri = false ∨ strTruthy rm = false →
      GeminiService.buildParts x mt pr ri rm
        = [RequestPart.inlineData x mt, RequestPart.text pr]
      ∧ GeminiService.buildParts x mt pr ri rm = GeminiService.buildParts x mt pr none none) := by
  constructor
  · intro h1 h2
    rw [GeminiService.buildParts_eq_gs]
    simp [h1, h2]
  · intro h
    have hcond : (strTruthy ri && strTruthy rm) = false := by
      rcases h with h | h <;> simp [h]
    rw [GeminiService.buildParts_eq_gs, GeminiService.buildParts_eq_gs, hcond]
    exact ⟨rfl, rfl⟩

/-- Witness for the amended C3 at a complete non-empty reference pair. -/
theorem claim_builder_parts_witness :
    GeminiService.buildParts "IMG" "image/jpeg" "edit" (some "REF") (some "image/png")
      = [RequestPart.inlineData "IMG" "image/jpeg", RequestPart.inlineData "REF" "image/png",
          RequestPart.text "edit"] := by
  have h := (claim_builder_parts "IMG" "image/jpeg" "edit" (some "REF") (some "image/png")).1
    (by decide) (by decide)
  simpa using h

/-- C7: both implementations agree extensionally on request building and on
response interpretation; the geminiService.ts catch handler rethrows every
caught error as its own `message` field (or the fixed fallback) with no
quota classification and no retry-delay computation, and disagrees with the
unnamed variant's failure path on the spec's 429 example. -/
theorem claim_implementations_agree_except_catch :
    (∀ x mt pr ri rm,
      GeminiService.buildParts x mt pr ri rm = Part000.buildParts x mt pr ri rm)
    ∧ (∀ r : Response, GeminiService.interpretResponse r = Part000.interpretResponse r)
    ∧ (∀ e : CaughtError, GeminiService.catchMessage e
        = match e.message with
          | some m => if m = "" then FALLBACK_MSG else m
          | none => FALLBACK_MSG)
    ∧ GeminiService.catchMessage exOuter429 ≠ Part000.catchMessage exOuter429 := by
  refine ⟨?_, interpretResponse_agree, fun e => rfl, by decide⟩
  intro x mt pr ri rm
  rw [GeminiService.buildParts_eq_gs, Part000.buildParts_eq_p0]

/-- C4: when the first candidate's content parts contain an inline-image
part, the result is the data URL built from the first such part in part
order (text parts before it and any parts after it are ignored), with the
MIME type fixed to image/png irrespective of any input MIME type, in both
implementations. -/
theorem claim_first_image_part_wins (r : Response) (c : Candidate) (cs : List Candidate)
    (ct : Content) (pre post : List ResponsePart) (p : ResponsePart) (d : InlineData)
    (hc : r.candidates = some (c :: cs)) (hct : c.content = some ct)
    (hps : ct.parts = some (pre ++ p :: post))
    (hpre : ∀ q ∈ pre, q.inlineData = none)
    (hd : p.inlineData = some d) :
    Part000.editImageWithGemini (.ok r) = .ok ("data:image/png;base64," ++ d.data)
    ∧ GeminiService.editImageWithGemini (.ok r) = .ok ("data:image/png;base64," ++ d.data) := by
  have hfi := Part000.findInlineData_first pre p post d hpre hd
  have hi := Part000.interpret_image r c cs ct (pre ++ p :: post) d.data hc hct hps hfi
  constructor
  · simp only [Part000.editImageWithGemini, hi]
  · simp only [GeminiService.editImageWithGemini, interpretResponse_agree, hi]

/-- Witness for C4 at the spec's `[text, image, text]` response. -/
theorem claim_first_image_part_wins_witness :
    Part000.editImageWithGemini (.ok respTextImageText) = .ok "data:image/png;base64,IMG"
    ∧ GeminiService.editImageWithGemini (.ok respTextImageText)
        = .ok "data:image/png;base64,IMG" := by
  have h := claim_first_image_part_wins respTextImageText
    ⟨some ⟨some [⟨none, some "t1"⟩, ⟨some ⟨"IMG", some "image/jpeg"⟩, none⟩, ⟨none, some "t2"⟩]⟩⟩
    [] ⟨some [⟨none, some "t1"⟩, ⟨some ⟨"IMG", some "image/jpeg"⟩, none⟩, ⟨none, some "t2"⟩]⟩
    [⟨none, some "t1"⟩] [⟨none, some "t2"⟩] ⟨some ⟨"IMG", some "image/jpeg"⟩, none⟩
    ⟨"IMG", some "image/jpeg"⟩ rfl rfl rfl (by decide) rfl
  exact ⟨h.1, h.2⟩

/-- C5 (amended): when the first candidate's parts contain no inline-image
part, interpretation fails with the refusal error carrying the first
*non-empty* text part's content when one exists, and with the fixed
no-image error when the parts contain neither an image part nor a non-empty
text part; both implementations agree. -/
theorem claim_no_image_failure (r : Response) (c : Candidate) (cs : List Candidate)
    (ct : Content) (ps : List ResponsePart)
    (hc : r.candidates = some (c :: cs)) (hct : c.content = some ct) (hps : ct.parts = some ps)
    (hnoimg : ∀ q ∈ ps, q.inlineData = none) :
    (∀ t, Part000.findTextPart ps = some t →
      Part000.interpretResponse r = .thrown (refusalMsg t)
      ∧ GeminiService.interpretResponse r = .thrown (refusalMsg t))
    ∧ (Part000.findTextPart ps = none →
      Part000.interpretResponse r = .thrown NO_IMAGE_MSG
      ∧ GeminiService.interpretResponse r = .thrown NO_IMAGE_MSG) := by
  have hbase := Part000.interpret_no_image r c cs ct ps hc hct hps hnoimg
  constructor
  · intro t ht
    rw [ht] at hbase
    exact ⟨hbase, by rw [interpretResponse_agree]; exact hbase⟩
  · intro ht
    rw [ht] at hbase
    exact ⟨hbase, by rw [interpretResponse_agree]; exact hbase⟩

/-- Witness for the amended C5: a text-only response yields the refusal
carrying the text, and an empty parts list yields the no-image error. -/
theorem claim_no_image_failure_witness :
    Part000.interpretResponse respTextOnly = .thrown (refusalMsg "I cannot do that")
    ∧ Part000.interpretResponse respEmptyParts = .thrown NO_IMAGE_MSG := by
  constructor
  · exact ((claim_no_image_failure respTextOnly ⟨some ⟨some [⟨none, some "I cannot do that"⟩]⟩⟩
      [] ⟨some [⟨none, some "I cannot do that"⟩]⟩ [⟨none, some "I cannot do that"⟩] rfl rfl rfl
      (by decide)).1 "I cannot do that" rfl).1
  · exact ((claim_no_image_failure respEmptyParts ⟨some ⟨some []⟩⟩ [] ⟨some []⟩ [] rfl rfl rfl
      (by decide)).2 rfl).1

/-- C5 is false as stated: a response whose only part carries a present but
empty text field does contain a text part, yet the interpreter fails with
the fixed no-image error rather than a refusal carrying that text (JS
`find(p => p.text)` skips the falsy empty string). -/
theorem claim_no_image_failure_cex :
    ([(⟨none, some ""⟩ : ResponsePart)].any fun p => p.text.isSome) = true
    ∧ Part000.interpretResponse respEmptyTextPart = .thrown NO_IMAGE_MSG
    ∧ NO_IMAGE_MSG ≠ refusalMsg "" := by
  decide

/-- C9: a response with a present but empty candidates list does not produce
the fixed no-image failure: the unguarded `candidates[0].content` read
raises a TypeError whose message becomes the Generic failure message, in
both implementations. -/
theorem claim_empty_candidates (r : Response) (h : r.candidates = some []) :
    Part000.editImageWithGemini (.ok r) = .error TYPE_ERROR_CANDIDATES_MSG
    ∧ GeminiService.editImageWithGemini (.ok r) = .error TYPE_ERROR_CANDIDATES_MSG
    ∧ TYPE_ERROR_CANDIDATES_MSG ≠ NO_IMAGE_MSG := by
  have hint : Part000.interpretResponse r = .thrown TYPE_ERROR_CANDIDATES_MSG := by
    unfold Part000.interpretResponse
    rw [h]
  refine ⟨?_, ?_, by decide⟩
  · simp only [Part000.editImageWithGemini, hint]
    congr 1
  · simp only [GeminiService.editImageWithGemini, interpretResponse_agree, hint]
    congr 1

/-- Witness for C9 at the concrete response `{candidates: []}`. -/
theorem claim_empty_candidates_witness :
    Part000.editImageWithGemini (.ok respEmptyCandidates) = .error TYPE_ERROR_CANDIDATES_MSG
    ∧ TYPE_ERROR_CANDIDATES_MSG ≠ NO_IMAGE_MSG := by
  have h := claim_empty_candidates respEmptyCandidates rfl
  exact ⟨h.1, h.2.2⟩

/-- C8: a refusal whose text contains "quota" is swallowed: the thrown
refusal error is re-caught by the same function's classifier, whose
message-substring check matches, so the caller receives the generic quota
wait message instead of the model's refusal text. -/
theorem claim_refusal_swallowed (r : Response) (c : Candidate) (cs : List Candidate)
    (ct : Content) (ps : List ResponsePart) (t : String)
    (hc : r.candidates = some (c :: cs)) (hct : c.content = some ct) (hps : ct.parts = some ps)
    (hnoimg : ∀ q ∈ ps, q.inlineData = none)
    (htext : Part000.findTextPart ps = some t)
    (hq : strContains t "quota" = true) :
    Part000.editImageWithGemini (.ok r) = .error QUOTA_GENERIC_MSG
    ∧ Part000.editImageWithGemini (.ok r) ≠ .error (refusalMsg t) := by
  have hbase := Part000.interpret_no_image r c cs ct ps hc hct hps hnoimg
  rw [htext] at hbase
  have hqm : strContains (refusalMsg t) "quota" = true := by
    unfold refusalMsg
    exact strContains_append_right _ t _ hq
  have hcatch := Part000.catchMessage_of_quota_message (refusalMsg t) hqm
  constructor
  · simp only [Part000.editImageWithGemini, hbase, hcatch]
  · simp only [Part000.editImageWithGemini, hbase, hcatch]
    intro hcontra
    exact quota_generic_ne_refusalMsg t (Except.error.inj hcontra)

/-- Witness for C8 at a concrete quota-mentioning refusal. -/
theorem claim_refusal_swallowed_witness :
    Part000.editImageWithGemini (.ok respQuotaRefusal) = .error QUOTA_GENERIC_MSG :=
  (claim_refusal_swallowed respQuotaRefusal
    ⟨some ⟨some [⟨none, some "your quota is exhausted"⟩]⟩⟩ []
    ⟨some [⟨none, some "your quota is exhausted"⟩]⟩ [⟨none, some "your quota is exhausted"⟩]
    "your quota is exhausted" rfl rfl rfl (by decide) rfl (by decide)).1

/-- C1 (amended): the classifier tests normalized fields — each taken from
the unwrapped error object with a fallback to the outer error's field when
the unwrapped one is absent or falsy — and classifies QuotaExceeded exactly
when the normalized code is 429, or the normalized status is
RESOURCE_EXHAUSTED, or the normalized message contains "quota" or
"Quota exceeded"; when so classified with no retry-info entry in the
details, the failure carries the generic wait-a-few-minutes quota
message. -/
theorem claim_quota_classification (e : CaughtError) :
    (Part000.quotaCond e = true ↔
      (Part000.errorCode e = some 429
        ∨ Part000.errorStatus e = some "RESOURCE_EXHAUSTED"
        ∨ strContains (Part000.errorMessage e) "quota" = true
        ∨ strContains (Part000.errorMessage e) "Quota exceeded" = true))
    ∧ (Part000.quotaCond e = true →
        Part000.findRetryDelay (Part000.errorDetails e) = none →
        Part000.catchMessage e = QUOTA_GENERIC_MSG) := by
  constructor
  · simp only [Part000.quotaCond, Bool.or_eq_true, beq_iff_eq]
    tauto
  · intro h1 h2
    unfold Part000.catchMessage
    simp [h1, h2]

/-- Witness for C1 at the spec's `{code: 429, message: "rate limited"}`
error with no details. -/
theorem claim_quota_classification_witness :
    Part000.catchMessage exOuter429 = QUOTA_GENERIC_MSG :=
  (claim_quota_classification exOuter429).2 (by decide) (by decide)

/-- C1 is false as stated: with a nested error payload carrying no quota
signal and an outer code 429, the unwrapped error object satisfies none of
the claim's three conditions, yet the code classifies QuotaExceeded via the
fallback `errorObj.code || error.code`. -/
theorem claim_quota_classification_cex :
    (Part000.unwrapped exNested429).code ≠ some 429
    ∧ (Part000.unwrapped exNested429).status ≠ some "RESOURCE_EXHAUSTED"
    ∧ strContains ((Part000.unwrapped exNested429).message.getD "") "quota" = false
    ∧ strContains ((Part000.unwrapped exNested429).message.getD "") "Quota exceeded" = false
    ∧ Part000.quotaCond exNested429 = true := by
  decide

/-- C6 (amended): a caught error not classified as QuotaExceeded fails with
the normalized message — the unwrapped object's message, falling back to
the outer error's message — or the fixed fallback string when that
normalized message is empty; and for every caught error the surfaced
message is non-empty. -/
theorem claim_generic_failure (e : CaughtError) :
    (Part000.quotaCond e = false →
      Part000.catchMessage e
        = (if Part000.errorMessage e = "" then FALLBACK_MSG else Part000.errorMessage e))
    ∧ Part000.catchMessage e ≠ "" := by
  refine ⟨?_, Part000.catchMessage_ne_empty e⟩
  intro h
  have hq : strContains (Part000.errorMessage e) "quota" = false := by
    by_contra hc
    have hc' : strContains (Part000.errorMessage e) "quota" = true := by
      revert hc
      cases strContains (Part000.errorMessage e) "quota" <;> simp
    have ht : Part000.quotaCond e = true := by simp [Part000.quotaCond, hc']
    rw [ht] at h
    cases h
  unfold Part000.catchMessage
  rw [h]
  simp only [Bool.false_eq_true, if_false, hq]
  by_cases hm : Part000.errorMessage e = "" <;> simp [hm]

/-- Witness for the amended C6 at a plain non-quota error. -/
theorem claim_generic_failure_witness :
    Part000.catchMessage exPlainBoom = "boom" ∧ Part000.catchMessage exPlainBoom ≠ "" := by
  have h := claim_generic_failure exPlainBoom
  refine ⟨?_, h.2⟩
  rw [h.1 (by decide)]
  decide

/-- C6 is false as stated: for a non-quota error whose nested payload has no
message while the outer error does, the code surfaces the outer message,
not the fixed fallback the claim prescribes when the unwrapped object has
no message. -/
theorem claim_generic_failure_cex :
    (Part000.unwrapped exOuterMsgOnly).message = none
    ∧ Part000.quotaCond exOuterMsgOnly = false
    ∧ Part000.catchMessage exOuterMsgOnly = "outer msg"
    ∧ "outer msg" ≠ FALLBACK_MSG := by
  decide

/-- C2 (amended): for a QuotaExceeded error carrying a retry-info delay "Ns"
that parses to N, the message phrases the wait from minutes = floor(N / 60)
and remaining = ceil(N mod 60): when minutes > 0 as "minute(s) [and
second(s)]" (seconds clause omitted when remaining = 0), otherwise as
"ceil(N) second(s)", pluralizing each unit exactly when its count *exceeds*
1 (not: differs from 1); retryDelay "125s" yields a message containing
"2 minutes and 5 seconds". -/
theorem claim_retry_delay_message (e : CaughtError) (rd : String) (q : ℚ)
    (h1 : Part000.quotaCond e = true)
    (h2 : Part000.findRetryDelay (Part000.errorDetails e) = some rd)
    (h3 : jsParseFloat (jsReplaceFirstS rd) = some q) :
    Part000.catchMessage e =
      (if (⌊q / 60⌋ : Int) > 0 then
        "API quota exceeded. You\x27ve reached the free tier limit. Please wait "
          ++ toString (⌊q / 60⌋ : Int) ++ " minute"
          ++ (if (⌊q / 60⌋ : Int) > 1 then "s" else "") ++ " "
          ++ (if (⌈jsMod q 60⌉ : Int) > 0 then
                "and " ++ toString (⌈jsMod q 60⌉ : Int) ++ " second"
                  ++ (if (⌈jsMod q 60⌉ : Int) > 1 then "s" else "")
              else "")
          ++ PRICING_TAIL
      else
        "API quota exceeded. Please wait " ++ toString (⌈q⌉ : Int) ++ " second"
          ++ (if (⌈q⌉ : Int) > 1 then "s" else "") ++ PRICING_TAIL) := by
  unfold Part000.catchMessage
  simp only [h1, h2, h3, if_true, reduceIte, Part000.retryMessage]

/-- Evaluation of the delay parser at "125s" (the ℚ arithmetic is
irreducible, so the final numeric step goes through norm_num). -/
theorem jsParseFloat_125 : jsParseFloat (jsReplaceFirstS "125s") = some 125 := by
  have hs : jsReplaceFirstS "125s" = "125" := by decide
  have hr : jsParseFloat "125"
      = some ((1 : ℚ) * ((125 : Nat) + ((0 : Nat) : ℚ) / (10 : ℚ) ^ (0 : Nat))) := rfl
  rw [hs, hr]
  norm_num

theorem floor_125_div_60 : (⌊(125 : ℚ) / 60⌋ : Int) = 2 := by
  rw [Int.floor_eq_iff]
  norm_num

theorem ceil_jsMod_125_60 : (⌈jsMod (125 : ℚ) 60⌉ : Int) = 5 := by
  unfold jsMod jsTrunc
  rw [if_pos (by norm_num), floor_125_div_60]
  norm_num

set_option maxRecDepth 16384 in
/-- Witness for the amended C2 at retryDelay "125s": minutes = 2,
remaining = 5, and the message contains "2 minutes and 5 seconds". -/
theorem claim_retry_delay_message_witness :
    Part000.catchMessage exRetry125
      = "API quota exceeded. You\x27ve reached the free tier limit. Please wait 2 minutes and 5 seconds before trying again, or upgrade your plan at https://ai.google.dev/pricing"
    ∧ strContains (Part000.catchMessage exRetry125) "2 minutes and 5 seconds" = true := by
  have h := claim_retry_delay_message exRetry125 "125s" 125 (by decide) (by decide)
    jsParseFloat_125
  rw [h, floor_125_div_60, ceil_jsMod_125_60]
  constructor
  · decide
  · decide

/-- Evaluation of the delay parser at "0s". -/
theorem jsParseFloat_0 : jsParseFloat (jsReplaceFirstS "0s") = some 0 := by
  have hs : jsReplaceFirstS "0s" = "0" := by decide
  have hr : jsParseFloat "0"
      = some ((1 : ℚ) * ((0 : Nat) + ((0 : Nat) : ℚ) / (10 : ℚ) ^ (0 : Nat))) := rfl
  rw [hs, hr]
  norm_num

set_option maxRecDepth 16384 in
/-- C2 is false as stated at N = 0: retryDelay "0s" yields "0 second", but
the claim's pluralization rule (pluralize when the count is not 1) demands
"0 seconds". -/
theorem claim_retry_delay_message_cex :
    Part000.catchMessage exRetry0
      = "API quota exceeded. Please wait 0 second before trying again, or upgrade your plan at https://ai.google.dev/pricing"
    ∧ strContains (Part000.catchMessage exRetry0) "0 seconds" = false := by
  have hq : Part000.quotaCond exRetry0 = true := by decide
  have hd : Part000.findRetryDelay (Part000.errorDetails exRetry0) = some "0s" := by decide
  have hfl : (⌊(0 : ℚ) / 60⌋ : Int) = 0 := by norm_num
  have hcl : (⌈(0 : ℚ)⌉ : Int) = 0 := by norm_num
  unfold Part000.catchMessage
  rw [hq, hd]
  simp only [if_true, reduceIte]
  unfold Part000.retryMessage
  rw [jsParseFloat_0]
  simp only [hfl, hcl]
  norm_num
  constructor
  · decide
  · decide
